import Mathlib

/-
Shallow embedding of the RUDP connection engine (jwehorner/RUDP).

The definitions below are translated from src/src/Connection.cpp,
src/src/rudp.cpp and src/include/rudp.h.  Socket and timer behaviour is
represented by explicit event traces: each iteration of the send loop
consumes one SendEvent (the outcome of the ACK wait), and each iteration of
the receive loop consumes one Datagram (one incoming packet together with
the transport outcomes the code can observe for it).
-/

namespace RUDP

/-- USHRT_MAX from climits: the maximum value of a 16-bit unsigned short.
Connection.cpp computes sequence wraparound as (x + 1) % USHRT_MAX. -/
def USHRT_MAX : Nat := 65535

/-- Size in bytes of an unsigned short (the sequence-number field). -/
def SIZEOF_USHORT : Nat := 2

/-- Size in bytes of an int (the payload-length field). -/
def SIZEOF_INT : Nat := 4

/-- Size in bytes of a char pointer on a 64-bit (LP64/LLP64) build. -/
def SIZEOF_CHAR_PTR : Nat := 8

/-- Size of the data-frame header written by Connection::send: the
sequence number (2 bytes) followed by the length (4 bytes). -/
def FRAME_HEADER_SIZE : Nat := SIZEOF_USHORT + SIZEOF_INT

/-- Bytes allocated for the outgoing ACK in Connection::receive:
new char[sizeof(unsigned short)]. -/
def ackAllocSize : Nat := SIZEOF_USHORT

/-- Bytes handed to send_to (and memcpy_s) for the outgoing ACK in
Connection::receive: boost::asio::buffer(ack_buffer, sizeof(ack_buffer)),
where ack_buffer is declared as char *, so sizeof(ack_buffer) is the size
of a pointer, not of the 2-byte allocation. -/
def ackWireSize : Nat := SIZEOF_CHAR_PTR

/-- Bytes the sender reads back when waiting for an ACK in Connection::send:
boost::asio::buffer(buffer, sizeof(received_sequence)). -/
def ackSenderReadSize : Nat := SIZEOF_USHORT

/-- The per-sender receive-sequence table sequence_recv_map, a
std::map from sender id string (address:port) to uint16_t, embedded as an
association list. -/
abbrev RecvMap := List (String × Nat)

/-- Lookup in the receive-sequence table (std::map::find). -/
def lookupMap : RecvMap → String → Option Nat
  | [], _ => none
  | (k, v) :: rest, key => if k = key then some v else lookupMap rest key

/-- Value of an entry, defaulting to 0 for an absent key. -/
def lookupD (m : RecvMap) (k : String) : Nat := (lookupMap m k).getD 0

/-- The lazy entry creation in Connection::receive: if find fails, insert
the key with expected sequence 0 (sequence_recv_map[sender_id] = 0). -/
def insertIfAbsent (m : RecvMap) (k : String) : RecvMap :=
  match lookupMap m k with
  | some _ => m
  | none => m ++ [(k, 0)]

/-- Overwrite the value stored for a key (std::map::operator[] assignment);
appends the key when absent. -/
def setMap : RecvMap → String → Nat → RecvMap
  | [], key, v => [(key, v)]
  | (k, w) :: rest, key, v =>
    if k = key then (k, v) :: rest else (k, w) :: setMap rest key v

/-- The sequence state of one Connection object (Connection.hpp): the send
sequence counter, the per-sender receive-sequence table, and the two
endpoint-configured flags.  The endpoint values themselves (addresses and
ports) play no role in the sequence logic and are not tracked. -/
structure Conn where
  sequence_send : Nat
  sequence_recv_map : RecvMap
  has_endpoint_local : Bool
  has_endpoint_remote : Bool
deriving Repr, DecidableEq

/-- Error kinds raised (as std::runtime_error) by Connection.cpp. -/
inductive RudpError where
  | noRemoteEndpoint
  | noLocalEndpoint
  | transportError
  | bufferTooSmall
deriving Repr, DecidableEq

/-- Constructor Connection::Connection: sequence_send = 0, empty receive
map, neither endpoint set. -/
def mkConnection : Conn :=
  { sequence_send := 0
    sequence_recv_map := []
    has_endpoint_local := false
    has_endpoint_remote := false }

/-- Connection::resetConnectionReceive: sequence_recv_map.clear(). -/
def resetConnectionReceive (c : Conn) : Conn :=
  { c with sequence_recv_map := [] }

/-- Connection::resetConnectionSend: sequence_send = 0. -/
def resetConnectionSend (c : Conn) : Conn :=
  { c with sequence_send := 0 }

/-- Connection::setEndpointLocal, success path: the socket is bound, the
local-endpoint flag is set and resetConnectionReceive() is called.
sequence_send is not touched. -/
def setEndpointLocal (c : Conn) : Conn :=
  resetConnectionReceive { c with has_endpoint_local := true }

/-- Connection::setEndpointRemote, success path: the remote endpoint is
recorded and resetConnectionSend() is called.  sequence_recv_map is not
touched. -/
def setEndpointRemote (c : Conn) : Conn :=
  resetConnectionSend { c with has_endpoint_remote := true }

/-- Outcome of one iteration of the ACK wait in Connection::send:
either the data-frame send_to itself fails (fatal throw), or the
timed wait ends with no data (length <= 0), or an ACK datagram arrives
whose first two bytes decode to the given sequence value. -/
inductive SendEvent where
  | transmitError
  | timeout
  | ackData (seq : Nat)
deriving Repr, DecidableEq

/-- Result of Connection::send over a finite event trace.  blocked means
the trace was exhausted while the loop was still waiting for a matching
ACK; failed carries the error thrown and the (unchanged) connection state;
ok carries the updated state, the send_to return value (the full frame
size) and the number of frame transmissions performed.  Every result
records how many times the frame was written to the socket. -/
inductive SendResult where
  | blocked (c : Conn) (transmits : Nat)
  | failed (e : RudpError) (c : Conn) (transmits : Nat)
  | ok (c : Conn) (sent : Nat) (transmits : Nat)
deriving Repr, DecidableEq

/-- The while (!ack_received) loop of Connection::send.  Each list element
is one loop iteration: the frame is transmitted, then the ACK wait resolves
as the event describes.  ackData s with s = sequence_send sets
ack_received; any other outcome loops (the same frame, same sequence, is
retransmitted).  On success sequence_send is incremented modulo
USHRT_MAX. -/
def sendLoop (c : Conn) (len : Nat) : List SendEvent → Nat → SendResult
  | [], t => SendResult.blocked c t
  | SendEvent.transmitError :: _, t => SendResult.failed RudpError.transportError c t
  | SendEvent.timeout :: rest, t => sendLoop c len rest (t + 1)
  | SendEvent.ackData s :: rest, t =>
    if s = c.sequence_send then
      SendResult.ok { c with sequence_send := (c.sequence_send + 1) % USHRT_MAX }
        (FRAME_HEADER_SIZE + len) (t + 1)
    else
      sendLoop c len rest (t + 1)

/-- Connection::send on a payload of len bytes: throws immediately (zero
transmissions, state unchanged) when no remote endpoint is set, otherwise
runs the retransmission loop. -/
def Connection_send (c : Conn) (len : Nat) (events : List SendEvent) : SendResult :=
  if c.has_endpoint_remote then sendLoop c len events 0
  else SendResult.failed RudpError.noRemoteEndpoint c 0

/-- One successful send: Connection::send driven by a trace whose single
event is a matching ACK.  Used to state sequence-counter properties. -/
def sendOnce (c : Conn) : Conn :=
  match Connection_send c 0 [SendEvent.ackData c.sequence_send] with
  | SendResult.ok c2 _ _ => c2
  | _ => c

/-- One incoming datagram as observed by an iteration of the receive loop
of Connection::receive: the sender key (address:port string), whether
receive_from reported an error, whether the memcpy_s parsing the sequence
header failed, the sequence and length values the header decodes to, and
whether the send_to of the answering ACK fails. -/
structure Datagram where
  sender : String
  readError : Bool
  parseError : Bool
  sequence : Nat
  length : Int
  ackSendError : Bool
deriving Repr, DecidableEq

/-- How one iteration of the receive loop ends: continue with the next
datagram, deliver the payload and leave the loop, or throw. -/
inductive StepOutcome where
  | continueLoop
  | deliver
  | fatal (e : RudpError)
deriving Repr, DecidableEq

/-- Observable effects of one iteration of the receive loop: the receive
map after the iteration, the sequence echoed in an attempted ACK (none if
no ACK send was attempted) and the byte count handed to send_to for it,
whether the payload was copied into the caller's buffer, whether the
sender address/port out-parameters were written, and how the iteration
ended. -/
structure StepResult where
  map : RecvMap
  ack : Option Nat
  ackLen : Option Nat
  wroteBuf : Bool
  wroteSender : Bool
  outcome : StepOutcome
deriving Repr, DecidableEq

/-- One iteration of the while (continue_receiving) loop of
Connection::receive, for a caller buffer of capacity cap.  Mirrors the
code: the map entry for the sender is created (value 0) before any
parsing; a read or parse error sets error_occured and the loop continues;
for an in-order frame, len < received_len throws BufferTooSmall before any
ACK is sent, otherwise the payload and sender info are written and an ACK
is attempted (an ACK send error sets error_occured, so the loop continues
even though the frame was delivered to the buffer); for a stale frame
(sequence below the expected value) an ACK is attempted and nothing is
delivered; for a future frame nothing at all is sent.  The expected
counter is never advanced inside the loop. -/
def receiveStep (map : RecvMap) (cap : Int) (dg : Datagram) : StepResult :=
  let map1 := insertIfAbsent map dg.sender
  let expected := lookupD map1 dg.sender
  if dg.readError then
    { map := map1, ack := none, ackLen := none, wroteBuf := false,
      wroteSender := false, outcome := StepOutcome.continueLoop }
  else if dg.parseError then
    { map := map1, ack := none, ackLen := none, wroteBuf := false,
      wroteSender := false, outcome := StepOutcome.continueLoop }
  else if dg.sequence = expected then
    if cap < dg.length then
      { map := map1, ack := none, ackLen := none, wroteBuf := false,
        wroteSender := false, outcome := StepOutcome.fatal RudpError.bufferTooSmall }
    else
      { map := map1, ack := some dg.sequence, ackLen := some ackWireSize,
        wroteBuf := true, wroteSender := true,
        outcome := if dg.ackSendError then StepOutcome.continueLoop else StepOutcome.deliver }
  else if dg.sequence < expected then
    { map := map1, ack := some dg.sequence, ackLen := some ackWireSize,
      wroteBuf := false, wroteSender := false, outcome := StepOutcome.continueLoop }
  else
    { map := map1, ack := none, ackLen := none, wroteBuf := false,
      wroteSender := false, outcome := StepOutcome.continueLoop }

/-- Result of the receive loop proper (before the post-loop sequence
increment): blocked when the datagram trace is exhausted with the loop
still running, failed when an iteration threw, delivered with the parsed
length and the sender of the delivered frame otherwise.  Each result
carries the receive map as left by the loop. -/
inductive RecvLoopResult where
  | blocked (map : RecvMap)
  | failed (e : RudpError) (map : RecvMap)
  | delivered (map : RecvMap) (len : Int) (sender : String)
deriving Repr, DecidableEq

/-- The while (continue_receiving) loop of Connection::receive over a
finite datagram trace. -/
def recvLoop (map : RecvMap) (cap : Int) : List Datagram → RecvLoopResult
  | [] => RecvLoopResult.blocked map
  | dg :: rest =>
    match (receiveStep map cap dg).outcome with
    | StepOutcome.fatal e => RecvLoopResult.failed e (receiveStep map cap dg).map
    | StepOutcome.deliver => RecvLoopResult.delivered (receiveStep map cap dg).map dg.length dg.sender
    | StepOutcome.continueLoop => recvLoop (receiveStep map cap dg).map cap rest

/-- Result of Connection::receive: the final connection state, and on
success the parsed payload length and sender id returned to the caller. -/
inductive RecvResult where
  | blocked (c : Conn)
  | failed (e : RudpError) (c : Conn)
  | delivered (c : Conn) (len : Int) (sender : String)
deriving Repr, DecidableEq

/-- Connection::receive with a caller buffer of capacity cap: throws
immediately (state unchanged, no datagram consumed) when no local endpoint
is set; otherwise runs the loop and, once the correct message has been
received, increments the sender's entry modulo USHRT_MAX
(sequence_recv_map[sender_id] = (sequence_recv_map[sender_id] + 1) % USHRT_MAX). -/
def Connection_receive (c : Conn) (cap : Int) (dgs : List Datagram) : RecvResult :=
  if c.has_endpoint_local then
    match recvLoop c.sequence_recv_map cap dgs with
    | RecvLoopResult.blocked m => RecvResult.blocked { c with sequence_recv_map := m }
    | RecvLoopResult.failed e m => RecvResult.failed e { c with sequence_recv_map := m }
    | RecvLoopResult.delivered m len sender =>
      RecvResult.delivered
        { c with sequence_recv_map := setMap m sender ((lookupD m sender + 1) % USHRT_MAX) }
        len sender
  else RecvResult.failed RudpError.noLocalEndpoint c

/-- Little-endian (host order on x86) byte layout of a 2-byte sequence
number, as memcpy of a uint16_t produces on the reference platform. -/
def encodeAck (s : Nat) : List Nat := [s % 256, s / 256 % 256]

/-- Value a memcpy into a uint16_t reads back from two bytes. -/
def decodeAck (b : List Nat) : Nat := b.getD 0 0 + 256 * b.getD 1 0

/-- The ACK datagram Connection::receive actually puts on the wire: the
two bytes of the sequence followed by whatever heap bytes lie after the
2-byte allocation, because send_to is given sizeof(char *) bytes. -/
def ackWireBytes (s : Nat) (heapGarbage : List Nat) : List Nat :=
  encodeAck s ++ heapGarbage

/-- The bytes of the ACK datagram the sender consumes: Connection::send
reads only sizeof(received_sequence) = 2 bytes of it. -/
def senderAckRead (wire : List Nat) : List Nat := wire.take ackSenderReadSize

/-- A fresh connection whose remote endpoint has been set, as in
Scenario C of the spec and test_send.c. -/
def initConnS : Conn := setEndpointRemote mkConnection

/-- Modelled from the spec: the send-channel retry state of spec section 3
(SendState: send_sequence, retry_count, retry_limit).  The retry-limit
feature is declared as rudp_set_send_retries_limit in include/rudp.h and
exercised by test/test_send.c, but its implementation (and the retry
fields of Connection) is absent from src/. -/
structure SpecSendState where
  send_sequence : Nat
  retry_count : Nat
  retry_limit : Option Nat
deriving Repr, DecidableEq

/-- Modelled from the spec: outcome of the send state machine of spec
section 4.3; transmits counts frame transmissions performed. -/
inductive SpecSendResult where
  | ok (st : SpecSendState) (transmits : Nat)
  | retryLimitExceeded (st : SpecSendState) (transmits : Nat)
  | blocked (st : SpecSendState) (transmits : Nat)
deriving Repr, DecidableEq

/-- Modelled from the spec: steps 2-5 of the send state machine of spec
section 4.3, for the retry-limit behaviour absent from src/.  Each list
element is one Await-ACK outcome (true when a matching ACK was received).
Per iteration: transmit the frame, wait, then increment retry_count; on a
matching ACK reset retry_count to 0 and increment send_sequence modulo
65536; otherwise, if retry_limit is set and retry_count has reached it,
fail with RetryLimitExceeded, resetting retry_count to 0 and leaving
send_sequence unchanged; otherwise retransmit. -/
def specSendLoop : SpecSendState → List Bool → Nat → SpecSendResult
  | st, [], t => SpecSendResult.blocked st t
  | st, ack :: rest, t =>
    let rc := st.retry_count + 1
    if ack then
      SpecSendResult.ok
        { st with retry_count := 0, send_sequence := (st.send_sequence + 1) % 65536 } (t + 1)
    else
      match st.retry_limit with
      | some limit =>
        if limit ≤ rc then
          SpecSendResult.retryLimitExceeded { st with retry_count := 0 } (t + 1)
        else
          specSendLoop { st with retry_count := rc } rest (t + 1)
      | none => specSendLoop { st with retry_count := rc } rest (t + 1)

/-- Adapter rudp_make_connection (rudp.cpp): writes 0 to *error on
success, -1 on failure; returns the final value of *error given its
previous contents.  The Bool argument tells whether the underlying call
threw. -/
def rudp_make_connection_err (throws : Bool) (_prev : Int) : Int :=
  if throws then -1 else 0

/-- Adapter rudp_set_remote_endpoint (rudp.cpp): on success it returns
without touching *error (which keeps the caller's previous contents); on a
throw it writes -1. -/
def rudp_set_remote_endpoint (c : Conn) (throws : Bool) (prev : Int) : Conn × Int :=
  if throws then (c, -1) else (setEndpointRemote c, prev)

/-- Adapter rudp_set_local_endpoint (rudp.cpp): on success it returns
without touching *error; on a throw it writes -1. -/
def rudp_set_local_endpoint (c : Conn) (throws : Bool) (prev : Int) : Conn × Int :=
  if throws then (c, -1) else (setEndpointLocal c, prev)

/-- Adapter rudp_reset_connection_send (rudp.cpp): writes 0 to *error on
success, -1 on a throw. -/
def rudp_reset_connection_send (c : Conn) (throws : Bool) (_prev : Int) : Conn × Int :=
  if throws then (c, -1) else (resetConnectionSend c, 0)

/-- Adapter rudp_reset_connection_receive (rudp.cpp): writes 0 to *error
on success, -1 on a throw. -/
def rudp_reset_connection_receive (c : Conn) (throws : Bool) (_prev : Int) : Conn × Int :=
  if throws then (c, -1) else (resetConnectionReceive c, 0)

/-- Adapter rudp_send (rudp.cpp): calls Connection::send; writes 0 to
*error when it returns, -1 when it throws.  While the call is still
blocked no return has happened and *error keeps its previous contents. -/
def rudp_send (c : Conn) (len : Nat) (events : List SendEvent) (prev : Int) :
    SendResult × Int :=
  match Connection_send c len events with
  | SendResult.ok c2 n t => (SendResult.ok c2 n t, 0)
  | SendResult.failed e c2 t => (SendResult.failed e c2 t, -1)
  | SendResult.blocked c2 t => (SendResult.blocked c2 t, prev)

/-- Adapter rudp_receive (rudp.cpp): calls Connection::receive; writes 0
to *error when it returns, -1 when it throws; a blocked call leaves
*error untouched. -/
def rudp_receive (c : Conn) (cap : Int) (dgs : List Datagram) (prev : Int) :
    RecvResult × Int :=
  match Connection_receive c cap dgs with
  | RecvResult.delivered c2 n s => (RecvResult.delivered c2 n s, 0)
  | RecvResult.failed e c2 => (RecvResult.failed e c2, -1)
  | RecvResult.blocked c2 => (RecvResult.blocked c2, prev)

theorem lookup_append_some (m : RecvMap) (l : RecvMap) (k : String) (v : Nat)
    (h : lookupMap m k = some v) : lookupMap (m ++ l) k = some v := by
  induction m with
  | nil => simp [lookupMap] at h
  | cons p rest ih =>
    obtain ⟨a, b⟩ := p
    by_cases hk : a = k
    · simp [lookupMap, hk] at h ⊢
      exact h
    · simp [lookupMap, hk] at h ⊢
      exact ih h

theorem lookup_append_none (m : RecvMap) (k : String)
    (h : lookupMap m k = none) : lookupMap (m ++ [(k, 0)]) k = some 0 := by
  induction m with
  | nil => simp [lookupMap]
  | cons p rest ih =>
    obtain ⟨a, b⟩ := p
    by_cases hk : a = k
    · simp [lookupMap, hk] at h
    · simp [lookupMap, hk] at h ⊢
      exact ih h

theorem insertIfAbsent_of_mem (m : RecvMap) (k : String) (v : Nat)
    (h : lookupMap m k = some v) : insertIfAbsent m k = m := by
  simp [insertIfAbsent, h]

theorem lookupD_of_some (m : RecvMap) (k : String) (v : Nat)
    (h : lookupMap m k = some v) : lookupD m k = v := by
  simp [lookupD, h]

theorem lookup_insertIfAbsent_self (m : RecvMap) (k : String) :
    lookupMap (insertIfAbsent m k) k = some ((lookupMap m k).getD 0) := by
  cases h : lookupMap m k with
  | some v => simp [insertIfAbsent, h]
  | none =>
    simp [insertIfAbsent, h]
    exact lookup_append_none m k h

theorem lookup_insertIfAbsent_mono (m : RecvMap) (s k : String) (v : Nat)
    (h : lookupMap m k = some v) : lookupMap (insertIfAbsent m s) k = some v := by
  cases hs : lookupMap m s with
  | some w => simp [insertIfAbsent, hs, h]
  | none =>
    simp only [insertIfAbsent, hs]
    exact lookup_append_some m [(s, 0)] k v h

theorem receiveStep_map (map : RecvMap) (cap : Int) (dg : Datagram) :
    (receiveStep map cap dg).map = insertIfAbsent map dg.sender := by
  simp only [receiveStep]
  repeat' split
  all_goals rfl

theorem sendLoop_failed_conn (len : Nat) (evs : List SendEvent) :
    ∀ (c : Conn) (t : Nat) (e : RudpError) (c2 : Conn) (tr : Nat),
      sendLoop c len evs t = SendResult.failed e c2 tr → c2 = c := by
  induction evs with
  | nil =>
    intro c t e c2 tr h
    simp [sendLoop] at h
  | cons ev rest ih =>
    intro c t e c2 tr h
    cases ev with
    | transmitError =>
      simp [sendLoop] at h
      exact h.2.1.symm
    | timeout =>
      exact ih c (t + 1) e c2 tr (by simpa [sendLoop] using h)
    | ackData s =>
      by_cases hs : s = c.sequence_send
      · simp [sendLoop, hs] at h
      · exact ih c (t + 1) e c2 tr (by simpa [sendLoop, hs] using h)

theorem sendLoop_blocked_conn (len : Nat) (evs : List SendEvent) :
    ∀ (c : Conn) (t : Nat) (c2 : Conn) (tr : Nat),
      sendLoop c len evs t = SendResult.blocked c2 tr → c2 = c := by
  induction evs with
  | nil =>
    intro c t c2 tr h
    simp [sendLoop] at h
    exact h.1.symm
  | cons ev rest ih =>
    intro c t c2 tr h
    cases ev with
    | transmitError => simp [sendLoop] at h
    | timeout =>
      exact ih c (t + 1) c2 tr (by simpa [sendLoop] using h)
    | ackData s =>
      by_cases hs : s = c.sequence_send
      · simp [sendLoop, hs] at h
      · exact ih c (t + 1) c2 tr (by simpa [sendLoop, hs] using h)

theorem sendOnce_eq (c : Conn) (h : c.has_endpoint_remote = true) :
    sendOnce c = { c with sequence_send := (c.sequence_send + 1) % USHRT_MAX } := by
  simp [sendOnce, Connection_send, sendLoop, h]

theorem iterate_sendOnce_sequence (n : Nat) :
    ∀ c : Conn, c.has_endpoint_remote = true → c.sequence_send < USHRT_MAX →
      (Nat.iterate sendOnce n c).sequence_send = (c.sequence_send + n) % USHRT_MAX ∧
      (Nat.iterate sendOnce n c).has_endpoint_remote = true := by
  induction n with
  | zero =>
    intro c h1 h2
    simpa [Nat.iterate] using (Nat.mod_eq_of_lt h2).symm ▸ ⟨rfl, h1⟩
  | succ k ih =>
    intro c h1 h2
    have hs : sendOnce c = { c with sequence_send := (c.sequence_send + 1) % USHRT_MAX } :=
      sendOnce_eq c h1
    have hlt : (c.sequence_send + 1) % USHRT_MAX < USHRT_MAX :=
      Nat.mod_lt _ (by decide)
    have := ih { c with sequence_send := (c.sequence_send + 1) % USHRT_MAX } (by simpa using h1) hlt
    obtain ⟨hseq, hrem⟩ := this
    refine ⟨?_, ?_⟩
    · show (Nat.iterate sendOnce k (sendOnce c)).sequence_send = _
      rw [hs, hseq]
      simp only []
      rw [Nat.mod_add_mod]
      congr 1
      omega
    · show (Nat.iterate sendOnce k (sendOnce c)).has_endpoint_remote = true
      rw [hs]
      exact hrem

theorem receiveStep_error (map : RecvMap) (cap : Int) (dg : Datagram)
    (h : dg.readError = true ∨ dg.parseError = true) :
    receiveStep map cap dg =
      { map := insertIfAbsent map dg.sender, ack := none, ackLen := none,
        wroteBuf := false, wroteSender := false, outcome := StepOutcome.continueLoop } := by
  by_cases hr : dg.readError = true
  · simp [receiveStep, hr]
  · have hr' : dg.readError = false := by simpa using hr
    have hp : dg.parseError = true := by
      rcases h with h | h
      · exact absurd h hr
      · exact h
    simp [receiveStep, hr', hp]

theorem receiveStep_dup (map : RecvMap) (cap : Int) (dg : Datagram) (e : Nat)
    (h1 : dg.readError = false) (h2 : dg.parseError = false)
    (h3 : lookupMap map dg.sender = some e) (h4 : dg.sequence < e) :
    receiveStep map cap dg =
      { map := map, ack := some dg.sequence, ackLen := some ackWireSize,
        wroteBuf := false, wroteSender := false, outcome := StepOutcome.continueLoop } := by
  have hm : insertIfAbsent map dg.sender = map := insertIfAbsent_of_mem map dg.sender e h3
  have hd : lookupD map dg.sender = e := lookupD_of_some map dg.sender e h3
  have hne : ¬ dg.sequence = e := by omega
  simp [receiveStep, h1, h2, hm, hd, hne, h4]

theorem receiveStep_future (map : RecvMap) (cap : Int) (dg : Datagram) (e : Nat)
    (h1 : dg.readError = false) (h2 : dg.parseError = false)
    (h3 : lookupMap map dg.sender = some e) (h4 : e < dg.sequence) :
    receiveStep map cap dg =
      { map := map, ack := none, ackLen := none,
        wroteBuf := false, wroteSender := false, outcome := StepOutcome.continueLoop } := by
  have hm : insertIfAbsent map dg.sender = map := insertIfAbsent_of_mem map dg.sender e h3
  have hd : lookupD map dg.sender = e := lookupD_of_some map dg.sender e h3
  have hne : ¬ dg.sequence = e := by omega
  have hnlt : ¬ dg.sequence < e := by omega
  simp [receiveStep, h1, h2, hm, hd, hne, hnlt]

theorem receiveStep_future_fresh (map : RecvMap) (cap : Int) (dg : Datagram)
    (h1 : dg.readError = false) (h2 : dg.parseError = false)
    (h3 : lookupMap map dg.sender = none) (h4 : 0 < dg.sequence) :
    receiveStep map cap dg =
      { map := map ++ [(dg.sender, 0)], ack := none, ackLen := none,
        wroteBuf := false, wroteSender := false, outcome := StepOutcome.continueLoop } := by
  have hm : insertIfAbsent map dg.sender = map ++ [(dg.sender, 0)] := by
    simp [insertIfAbsent, h3]
  have hd : lookupD (map ++ [(dg.sender, 0)]) dg.sender = 0 := by
    simp [lookupD, lookup_append_none map dg.sender h3]
  have hne : ¬ dg.sequence = 0 := by omega
  have hnlt : ¬ dg.sequence < 0 := by omega
  simp [receiveStep, h1, h2, hm, hd, hne, hnlt]

theorem receiveStep_inorder_toosmall (map : RecvMap) (cap : Int) (dg : Datagram) (e : Nat)
    (h1 : dg.readError = false) (h2 : dg.parseError = false)
    (h3 : lookupMap map dg.sender = some e) (h4 : dg.sequence = e)
    (h5 : cap < dg.length) :
    receiveStep map cap dg =
      { map := map, ack := none, ackLen := none, wroteBuf := false,
        wroteSender := false, outcome := StepOutcome.fatal RudpError.bufferTooSmall } := by
  have hm : insertIfAbsent map dg.sender = map := insertIfAbsent_of_mem map dg.sender e h3
  have hd : lookupD map dg.sender = e := lookupD_of_some map dg.sender e h3
  simp [receiveStep, h1, h2, hm, hd, h4, h5]

theorem receiveStep_inorder_ok (map : RecvMap) (cap : Int) (dg : Datagram) (e : Nat)
    (h1 : dg.readError = false) (h2 : dg.parseError = false)
    (hAck : dg.ackSendError = false)
    (h3 : lookupMap map dg.sender = some e) (h4 : dg.sequence = e)
    (h5 : ¬ cap < dg.length) :
    receiveStep map cap dg =
      { map := map, ack := some dg.sequence, ackLen := some ackWireSize,
        wroteBuf := true, wroteSender := true, outcome := StepOutcome.deliver } := by
  have hm : insertIfAbsent map dg.sender = map := insertIfAbsent_of_mem map dg.sender e h3
  have hd : lookupD map dg.sender = e := lookupD_of_some map dg.sender e h3
  simp [receiveStep, h1, h2, hm, hd, h4, h5, hAck]

theorem specSendLoop_allFalse (n : Nat) :
    ∀ (m : Nat) (st : SpecSendState) (t : Nat),
      st.retry_limit = some n → st.retry_count < n → n - st.retry_count ≤ m →
      specSendLoop st (List.replicate m false) t =
        SpecSendResult.retryLimitExceeded { st with retry_count := 0 }
          (t + (n - st.retry_count)) := by
  intro m
  induction m with
  | zero =>
    intro st t h1 h2 h3
    omega
  | succ k ih =>
    intro st t h1 h2 h3
    rw [List.replicate_succ]
    rw [specSendLoop]
    simp only [Bool.false_eq_true, if_false, h1]
    by_cases hle : n ≤ st.retry_count + 1
    · simp only [if_pos hle]
      congr 1
      omega
    · simp only [if_neg hle]
      have hrec := ih { st with retry_count := st.retry_count + 1 } (t + 1)
        (by simp [h1]) (by simp; omega) (by simp; omega)
      simp only [h1] at hrec
      rw [hrec]
      congr 1
      omega

/-- Claim C1: for an engine whose retry limit is set to n, a send call that
never receives a matching ACK (every Await-ACK outcome is a non-match)
transmits the frame exactly n times, then fails with RetryLimitExceeded,
resets retry_count to 0, and leaves send_sequence unchanged.  Stated on the
spec-modelled send state machine, since the retry-limit implementation is
absent from src/. -/
theorem C1_retry_limit_exhaustion (n m : Nat) (st : SpecSendState)
    (h1 : st.retry_limit = some n) (h2 : st.retry_count = 0)
    (h3 : 0 < n) (h4 : n ≤ m) :
    specSendLoop st (List.replicate m false) 0 =
      SpecSendResult.retryLimitExceeded { st with retry_count := 0 } n ∧
    ({ st with retry_count := 0 } : SpecSendState).send_sequence = st.send_sequence := by
  have h := specSendLoop_allFalse n m st 0 h1 (by omega) (by omega)
  refine ⟨?_, rfl⟩
  rw [h]
  congr 1
  omega

/-- Claim C1 witness: Scenario C with retry_limit = 3 and an unreachable
peer: exactly 3 transmissions, then RetryLimitExceeded with the sequence
still 0. -/
theorem C1_retry_limit_exhaustion_wit :
    specSendLoop { send_sequence := 0, retry_count := 0, retry_limit := some 3 }
        (List.replicate 3 false) 0 =
      SpecSendResult.retryLimitExceeded
        { send_sequence := 0, retry_count := 0, retry_limit := some 3 } 3 :=
  (C1_retry_limit_exhaustion 3 3
    { send_sequence := 0, retry_count := 0, retry_limit := some 3 }
    rfl rfl (by decide) (by decide)).1

/-- Claim C2 counterexample: the code wraps with % USHRT_MAX = 65535, not
modulo 65536.  After 65535 successful sends from a fresh engine the
counter is 0, while the claim requires 65535 % 65536 = 65535. -/
theorem C2_counterexample_mod65535 :
    (Nat.iterate sendOnce 65535 initConnS).sequence_send = 0 ∧
    (Nat.iterate sendOnce 65535 initConnS).sequence_send ≠ 65535 % 65536 := by
  have h := (iterate_sendOnce_sequence 65535 initConnS rfl (by decide)).1
  have h0 : initConnS.sequence_send = 0 := rfl
  rw [h0] at h
  constructor
  · rw [h]
    decide
  · rw [h]
    decide

/-- Claim C2 (amended): the counters are modulo USHRT_MAX = 65535, wrapping
65534 to 0 (the value 65535 is never attained).  The send counter after N
successful sends from a fresh engine equals N % 65535 and is unchanged by
any failed send; a per-peer receive counter increments modulo 65535 when
an in-order frame is delivered and no loop iteration ever changes an
existing entry (delivery alone advances it, after the loop). -/
theorem C2_amended_sequence_counters :
    (∀ n : Nat, (Nat.iterate sendOnce n initConnS).sequence_send = n % USHRT_MAX) ∧
    (∀ (c : Conn) (len : Nat) (evs : List SendEvent) (e : RudpError) (c2 : Conn) (t : Nat),
      Connection_send c len evs = SendResult.failed e c2 t →
      c2.sequence_send = c.sequence_send) ∧
    (∀ (c : Conn) (cap : Int) (dg : Datagram) (e : Nat),
      c.has_endpoint_local = true → dg.readError = false → dg.parseError = false →
      dg.ackSendError = false → lookupMap c.sequence_recv_map dg.sender = some e →
      dg.sequence = e → ¬ cap < dg.length →
      Connection_receive c cap [dg] =
        RecvResult.delivered
          { c with sequence_recv_map :=
              setMap c.sequence_recv_map dg.sender ((e + 1) % USHRT_MAX) }
          dg.length dg.sender) ∧
    (∀ (map : RecvMap) (cap : Int) (dg : Datagram) (k : String) (v : Nat),
      lookupMap map k = some v → lookupMap (receiveStep map cap dg).map k = some v) := by
  refine ⟨?_, ?_, ?_, ?_⟩
  · intro n
    have h := (iterate_sendOnce_sequence n initConnS rfl (by decide)).1
    have h0 : initConnS.sequence_send = 0 := rfl
    rw [h0, Nat.zero_add] at h
    exact h
  · intro c len evs e c2 t h
    by_cases hr : c.has_endpoint_remote = true
    · simp only [Connection_send, hr, if_true] at h
      rw [sendLoop_failed_conn len evs c 0 e c2 t h]
    · have hr' : c.has_endpoint_remote = false := by simpa using hr
      simp only [Connection_send, hr', Bool.false_eq_true, if_false] at h
      injection h with ha hb hc
      rw [← hb]
  · intro c cap dg e hl h1 h2 hAck h3 h4 h5
    have hstep := receiveStep_inorder_ok c.sequence_recv_map cap dg e h1 h2 hAck h3 h4 h5
    have hd : lookupD c.sequence_recv_map dg.sender = e :=
      lookupD_of_some c.sequence_recv_map dg.sender e h3
    simp [Connection_receive, recvLoop, hl, hstep, hd]
  · intro map cap dg k v h
    rw [receiveStep_map]
    exact lookup_insertIfAbsent_mono map dg.sender k v h

/-- Claim C2 (amended) witness: two successful sends give counter 2 % 65535,
and delivering an in-order frame to peer a advances its entry to 1 % 65535. -/
theorem C2_amended_sequence_counters_wit :
    (Nat.iterate sendOnce 2 initConnS).sequence_send = 2 % USHRT_MAX ∧
    Connection_receive
        { sequence_send := 0, sequence_recv_map := [("a", 0)],
          has_endpoint_local := true, has_endpoint_remote := false } 16
        [{ sender := "a", readError := false, parseError := false,
           sequence := 0, length := 4, ackSendError := false }] =
      RecvResult.delivered
        { sequence_send := 0, sequence_recv_map := setMap [("a", 0)] "a" ((0 + 1) % USHRT_MAX),
          has_endpoint_local := true, has_endpoint_remote := false } 4 "a" := by
  refine ⟨C2_amended_sequence_counters.1 2, ?_⟩
  exact C2_amended_sequence_counters.2.2.1
    { sequence_send := 0, sequence_recv_map := [("a", 0)],
      has_endpoint_local := true, has_endpoint_remote := false } 16
    { sender := "a", readError := false, parseError := false,
      sequence := 0, length := 4, ackSendError := false } 0
    rfl rfl rfl rfl (by simp [lookupMap]) rfl (by decide)

/-- Claim C3 (code bug): Connection::receive hands send_to (and memcpy_s)
sizeof(ack_buffer) bytes for the ACK, where ack_buffer is a char pointer,
so on a 64-bit build the wire ACK datagram is 8 bytes read from a 2-byte
allocation rather than exactly the 2-byte sequence number; the sender
still recovers the sequence because it reads back only the first 2 bytes
of the datagram. -/
theorem C3_ack_wire_size_bug :
    ackAllocSize = 2 ∧ ackWireSize = 8 ∧ ackWireSize ≠ ackAllocSize ∧
    (receiveStep [] 64
        { sender := "a", readError := false, parseError := false,
          sequence := 0, length := 4, ackSendError := false }).ackLen = some ackWireSize ∧
    decodeAck (senderAckRead (ackWireBytes 513 [7, 7, 7, 7, 7, 7])) = 513 := by
  refine ⟨rfl, rfl, by decide, by decide, by decide⟩

/-- Claim C4: a frame whose sequence is strictly below the sender's
expected sequence gets an ACK echoing the received sequence, is not copied
into the caller's buffer, does not advance that sender's entry (the map is
unchanged), and the receive loop continues. -/
theorem C4_duplicate_reack (map : RecvMap) (cap : Int) (dg : Datagram) (e : Nat)
    (h1 : dg.readError = false) (h2 : dg.parseError = false)
    (h3 : lookupMap map dg.sender = some e) (h4 : dg.sequence < e) :
    (receiveStep map cap dg).ack = some dg.sequence ∧
    (receiveStep map cap dg).wroteBuf = false ∧
    (receiveStep map cap dg).map = map ∧
    (receiveStep map cap dg).outcome = StepOutcome.continueLoop ∧
    (∀ rest : List Datagram, recvLoop map cap (dg :: rest) = recvLoop map cap rest) := by
  have hstep := receiveStep_dup map cap dg e h1 h2 h3 h4
  refine ⟨by rw [hstep], by rw [hstep], by rw [hstep], by rw [hstep], ?_⟩
  intro rest
  simp [recvLoop, hstep]

/-- Claim C4 witness: expected sequence 3, duplicate frame with sequence 1. -/
theorem C4_duplicate_reack_wit :
    (receiveStep [("a", 3)] 64
        { sender := "a", readError := false, parseError := false,
          sequence := 1, length := 4, ackSendError := false }).ack = some 1 ∧
    (receiveStep [("a", 3)] 64
        { sender := "a", readError := false, parseError := false,
          sequence := 1, length := 4, ackSendError := false }).wroteBuf = false ∧
    (receiveStep [("a", 3)] 64
        { sender := "a", readError := false, parseError := false,
          sequence := 1, length := 4, ackSendError := false }).map = [("a", 3)] ∧
    (receiveStep [("a", 3)] 64
        { sender := "a", readError := false, parseError := false,
          sequence := 1, length := 4, ackSendError := false }).outcome =
      StepOutcome.continueLoop := by
  have h := C4_duplicate_reack [("a", 3)] 64
    { sender := "a", readError := false, parseError := false,
      sequence := 1, length := 4, ackSendError := false } 3
    rfl rfl (by simp [lookupMap]) (by decide)
  exact ⟨h.1, h.2.1, h.2.2.1, h.2.2.2.1⟩

/-- Claim C5: a frame whose sequence is strictly above the sender's
expected sequence is dropped silently: no ACK is attempted, nothing is
delivered, the sender's entry does not advance (for a known sender the
map is unchanged; for an unseen sender the entry stays at its fresh value
0), and the loop continues waiting. -/
theorem C5_future_frame_drop :
    (∀ (map : RecvMap) (cap : Int) (dg : Datagram) (e : Nat),
      dg.readError = false → dg.parseError = false →
      lookupMap map dg.sender = some e → e < dg.sequence →
      (receiveStep map cap dg).ack = none ∧
      (receiveStep map cap dg).ackLen = none ∧
      (receiveStep map cap dg).wroteBuf = false ∧
      (receiveStep map cap dg).map = map ∧
      (receiveStep map cap dg).outcome = StepOutcome.continueLoop ∧
      (∀ rest : List Datagram, recvLoop map cap (dg :: rest) = recvLoop map cap rest)) ∧
    (∀ (map : RecvMap) (cap : Int) (dg : Datagram),
      dg.readError = false → dg.parseError = false →
      lookupMap map dg.sender = none → 0 < dg.sequence →
      (receiveStep map cap dg).ack = none ∧
      lookupMap (receiveStep map cap dg).map dg.sender = some 0 ∧
      (receiveStep map cap dg).outcome = StepOutcome.continueLoop) := by
  constructor
  · intro map cap dg e h1 h2 h3 h4
    have hstep := receiveStep_future map cap dg e h1 h2 h3 h4
    refine ⟨by rw [hstep], by rw [hstep], by rw [hstep], by rw [hstep], by rw [hstep], ?_⟩
    intro rest
    simp [recvLoop, hstep]
  · intro map cap dg h1 h2 h3 h4
    have hstep := receiveStep_future_fresh map cap dg h1 h2 h3 h4
    refine ⟨by rw [hstep], ?_, by rw [hstep]⟩
    rw [hstep]
    exact lookup_append_none map dg.sender h3

/-- Claim C5 witness: expected sequence 1, future frame with sequence 5. -/
theorem C5_future_frame_drop_wit :
    (receiveStep [("a", 1)] 64
        { sender := "a", readError := false, parseError := false,
          sequence := 5, length := 4, ackSendError := false }).ack = none ∧
    (receiveStep [("a", 1)] 64
        { sender := "a", readError := false, parseError := false,
          sequence := 5, length := 4, ackSendError := false }).map = [("a", 1)] ∧
    (receiveStep [("a", 1)] 64
        { sender := "a", readError := false, parseError := false,
          sequence := 5, length := 4, ackSendError := false }).outcome =
      StepOutcome.continueLoop := by
  have h := C5_future_frame_drop.1 [("a", 1)] 64
    { sender := "a", readError := false, parseError := false,
      sequence := 5, length := 4, ackSendError := false } 1
    rfl rfl (by simp [lookupMap]) (by decide)
  exact ⟨h.1, h.2.2.2.1, h.2.2.2.2.1⟩

/-- Claim C6: an in-order frame whose parsed payload length exceeds the
caller's buffer capacity makes the whole receive call fail with
BufferTooSmall: no ACK is attempted for that frame, nothing is copied, the
loop is not resumed (the rest of the trace is ignored), and the connection
state, in particular the sender's expected sequence, is unchanged. -/
theorem C6_buffer_too_small (c : Conn) (cap : Int) (dg : Datagram)
    (rest : List Datagram) (e : Nat)
    (hl : c.has_endpoint_local = true)
    (h1 : dg.readError = false) (h2 : dg.parseError = false)
    (h3 : lookupMap c.sequence_recv_map dg.sender = some e) (h4 : dg.sequence = e)
    (h5 : cap < dg.length) :
    Connection_receive c cap (dg :: rest) =
      RecvResult.failed RudpError.bufferTooSmall c ∧
    (receiveStep c.sequence_recv_map cap dg).ack = none ∧
    (receiveStep c.sequence_recv_map cap dg).wroteBuf = false := by
  have hstep := receiveStep_inorder_toosmall c.sequence_recv_map cap dg e h1 h2 h3 h4 h5
  refine ⟨?_, by rw [hstep], by rw [hstep]⟩
  obtain ⟨s, m, l, r⟩ := c
  simp only [Conn.has_endpoint_local] at hl
  subst hl
  simp only [Conn.sequence_recv_map] at hstep
  simp [Connection_receive, recvLoop, hstep]

/-- Claim C6 witness: Scenario D, buffer capacity 4 against an in-order
frame of payload length 12. -/
theorem C6_buffer_too_small_wit :
    Connection_receive
        { sequence_send := 0, sequence_recv_map := [("a", 0)],
          has_endpoint_local := true, has_endpoint_remote := false } 4
        [{ sender := "a", readError := false, parseError := false,
           sequence := 0, length := 12, ackSendError := false }] =
      RecvResult.failed RudpError.bufferTooSmall
        { sequence_send := 0, sequence_recv_map := [("a", 0)],
          has_endpoint_local := true, has_endpoint_remote := false } ∧
    (receiveStep [("a", 0)] 4
        { sender := "a", readError := false, parseError := false,
          sequence := 0, length := 12, ackSendError := false }).ack = none := by
  have h := C6_buffer_too_small
    { sequence_send := 0, sequence_recv_map := [("a", 0)],
      has_endpoint_local := true, has_endpoint_remote := false } 4
    { sender := "a", readError := false, parseError := false,
      sequence := 0, length := 12, ackSendError := false } [] 0
    rfl rfl rfl (by simp [lookupMap]) rfl (by decide)
  exact ⟨h.1, h.2.1⟩

/-- Claim C7: a successful setEndpointLocal clears the whole receive table
and leaves the send counter alone; a successful setEndpointRemote resets
the send counter to 0 and leaves the receive table alone. -/
theorem C7_endpoint_resets (c : Conn) :
    (setEndpointLocal c).sequence_recv_map = [] ∧
    (setEndpointLocal c).sequence_send = c.sequence_send ∧
    (setEndpointLocal c).has_endpoint_local = true ∧
    (setEndpointRemote c).sequence_send = 0 ∧
    (setEndpointRemote c).sequence_recv_map = c.sequence_recv_map ∧
    (setEndpointRemote c).has_endpoint_remote = true :=
  ⟨rfl, rfl, rfl, rfl, rfl, rfl⟩

/-- Claim C8: send with no remote endpoint fails at once with no socket
write and with the state unchanged; receive with no local endpoint fails
at once with the state unchanged, whatever the traffic would have been. -/
theorem C8_unset_endpoints_fail :
    (∀ (c : Conn) (len : Nat) (evs : List SendEvent),
      c.has_endpoint_remote = false →
      Connection_send c len evs = SendResult.failed RudpError.noRemoteEndpoint c 0) ∧
    (∀ (c : Conn) (cap : Int) (dgs : List Datagram),
      c.has_endpoint_local = false →
      Connection_receive c cap dgs = RecvResult.failed RudpError.noLocalEndpoint c) := by
  constructor
  · intro c len evs h
    simp [Connection_send, h]
  · intro c cap dgs h
    simp [Connection_receive, h]

/-- Claim C8 witness: a fresh connection has neither endpoint, so both
calls fail immediately with zero transmissions. -/
theorem C8_unset_endpoints_fail_wit :
    Connection_send mkConnection 5 [SendEvent.timeout] =
      SendResult.failed RudpError.noRemoteEndpoint mkConnection 0 ∧
    Connection_receive mkConnection 64
        [{ sender := "a", readError := false, parseError := false,
           sequence := 0, length := 4, ackSendError := false }] =
      RecvResult.failed RudpError.noLocalEndpoint mkConnection :=
  ⟨C8_unset_endpoints_fail.1 mkConnection 5 [SendEvent.timeout] rfl,
   C8_unset_endpoints_fail.2 mkConnection 64 _ rfl⟩

/-- Claim C9: on success rudp_set_remote_endpoint and
rudp_set_local_endpoint leave the error out-parameter untouched (it keeps
whatever the caller passed in), while every other adapter operation in
rudp.cpp writes 0 on success; all of them write -1 on failure. -/
theorem C9_adapter_error_conventions :
    (∀ (c : Conn) (prev : Int),
      (rudp_set_remote_endpoint c false prev).2 = prev ∧
      (rudp_set_local_endpoint c false prev).2 = prev ∧
      (rudp_set_remote_endpoint c true prev).2 = -1 ∧
      (rudp_set_local_endpoint c true prev).2 = -1 ∧
      rudp_make_connection_err false prev = 0 ∧
      rudp_make_connection_err true prev = -1 ∧
      (rudp_reset_connection_send c false prev).2 = 0 ∧
      (rudp_reset_connection_send c true prev).2 = -1 ∧
      (rudp_reset_connection_receive c false prev).2 = 0 ∧
      (rudp_reset_connection_receive c true prev).2 = -1) ∧
    (∀ (c : Conn) (len : Nat) (evs : List SendEvent) (prev : Int)
        (c2 : Conn) (n t : Nat),
      Connection_send c len evs = SendResult.ok c2 n t →
      (rudp_send c len evs prev).2 = 0) ∧
    (∀ (c : Conn) (len : Nat) (evs : List SendEvent) (prev : Int)
        (e : RudpError) (c2 : Conn) (t : Nat),
      Connection_send c len evs = SendResult.failed e c2 t →
      (rudp_send c len evs prev).2 = -1) ∧
    (∀ (c : Conn) (cap : Int) (dgs : List Datagram) (prev : Int)
        (c2 : Conn) (n : Int) (s : String),
      Connection_receive c cap dgs = RecvResult.delivered c2 n s →
      (rudp_receive c cap dgs prev).2 = 0) ∧
    (∀ (c : Conn) (cap : Int) (dgs : List Datagram) (prev : Int)
        (e : RudpError) (c2 : Conn),
      Connection_receive c cap dgs = RecvResult.failed e c2 →
      (rudp_receive c cap dgs prev).2 = -1) := by
  refine ⟨?_, ?_, ?_, ?_, ?_⟩
  · intro c prev
    exact ⟨rfl, rfl, rfl, rfl, rfl, rfl, rfl, rfl, rfl, rfl⟩
  · intro c len evs prev c2 n t h
    simp [rudp_send, h]
  · intro c len evs prev e c2 t h
    simp [rudp_send, h]
  · intro c cap dgs prev c2 n s h
    simp [rudp_receive, h]
  · intro c cap dgs prev e c2 h
    simp [rudp_receive, h]

/-- Claim C9 witness: a successful set_remote_endpoint keeps the caller's
previous error value 7, a successful rudp_send writes 0, a failing
rudp_send writes -1. -/
theorem C9_adapter_error_conventions_wit :
    (rudp_set_remote_endpoint mkConnection false 7).2 = 7 ∧
    (rudp_send initConnS 1 [SendEvent.ackData 0] 5).2 = 0 ∧
    (rudp_send mkConnection 1 [] 5).2 = -1 := by
  refine ⟨(C9_adapter_error_conventions.1 mkConnection 7).1, ?_, ?_⟩
  · exact C9_adapter_error_conventions.2.1 initConnS 1 [SendEvent.ackData 0] 5
      { sequence_send := 1 % USHRT_MAX, sequence_recv_map := [],
        has_endpoint_local := false, has_endpoint_remote := true }
      (FRAME_HEADER_SIZE + 1) 1 rfl
  · exact C9_adapter_error_conventions.2.2.1 mkConnection 1 [] 5
      RudpError.noRemoteEndpoint mkConnection 0 rfl

/-- Claim C10: every iteration of the receive loop creates (or keeps) the
map entry for the datagram's sender before anything is decoded or
validated, so even a datagram whose read reports a transport error or
whose header copy fails leaves behind an entry (initialized to 0 when the
sender was unseen) while the loop just continues. -/
theorem C10_entry_created_before_validation :
    (∀ (map : RecvMap) (cap : Int) (dg : Datagram),
      lookupMap (receiveStep map cap dg).map dg.sender =
        some ((lookupMap map dg.sender).getD 0)) ∧
    (∀ (map : RecvMap) (cap : Int) (dg : Datagram),
      dg.readError = true ∨ dg.parseError = true →
      (receiveStep map cap dg).outcome = StepOutcome.continueLoop ∧
      (receiveStep map cap dg).map = insertIfAbsent map dg.sender ∧
      (∀ rest : List Datagram,
        recvLoop map cap (dg :: rest) = recvLoop (insertIfAbsent map dg.sender) cap rest)) := by
  constructor
  · intro map cap dg
    rw [receiveStep_map]
    exact lookup_insertIfAbsent_self map dg.sender
  · intro map cap dg h
    have hstep := receiveStep_error map cap dg h
    refine ⟨by rw [hstep], by rw [hstep], ?_⟩
    intro rest
    simp [recvLoop, hstep]

/-- Claim C10 witness: a datagram from unseen sender a whose read failed
still creates the entry a with expected sequence 0 and the loop goes on. -/
theorem C10_entry_created_before_validation_wit :
    lookupMap
        (receiveStep [] 64
          { sender := "a", readError := true, parseError := false,
            sequence := 0, length := 4, ackSendError := false }).map "a" = some 0 ∧
    (receiveStep [] 64
        { sender := "a", readError := true, parseError := false,
          sequence := 0, length := 4, ackSendError := false }).outcome =
      StepOutcome.continueLoop := by
  have h1 := C10_entry_created_before_validation.1 [] 64
    { sender := "a", readError := true, parseError := false,
      sequence := 0, length := 4, ackSendError := false }
  have h2 := C10_entry_created_before_validation.2 [] 64
    { sender := "a", readError := true, parseError := false,
      sequence := 0, length := 4, ackSendError := false } (Or.inl rfl)
  exact ⟨h1, h2.1⟩

end RUDP
